import Mathlib

/-
Verification of the natural-language specification of the
autodesk-fusion-mcp-python repository against its three source files:

  * src/LiveCube/LiveCube.py    - Fusion 360 add-in, embedded HTTP server
                                  (endpoint GET /cmd?edge=<float> on port 18080)
  * src/fusion_mcp.py           - cloud MCP tool server (OAuth token exchange,
                                  workitem submission, polling, generate_cube)
  * src/fusion_server.py        - stub intermediary server
                                  (endpoint GET /create_cube?width=&height=&depth=)

The Python code is shallowly embedded: each request handler becomes a pure
Lean function from the request data (path, decoded query pairs) and the
injected outcomes of external effects (geometry API, network calls) to an
HTTP response value.  Python floats are modelled as exact signed decimals
(see the PyFloat section).  Exceptions are modelled as Except values
carrying the exception text str(e).
-/

/-! ## String containment utilities -/

/-- needle `n` matches at the head of `h` (list-of-chars level). -/
def leadMatch : List Char → List Char → Bool
  | [], _ => true
  | _ :: _, [] => false
  | a :: as, b :: bs => a == b && leadMatch as bs

/-- needle `n` occurs contiguously somewhere inside the haystack. -/
def subMatch (n : List Char) : List Char → Bool
  | [] => leadMatch n []
  | c :: cs => leadMatch n (c :: cs) || subMatch n cs

/-- `strContains hay needle` : `needle` is a contiguous substring of `hay`. -/
def strContains (hay needle : String) : Bool :=
  subMatch needle.data hay.data

theorem leadMatch_append_self (n t : List Char) : leadMatch n (n ++ t) = true := by
  induction n with
  | nil => rfl
  | cons c cs ih => simp [leadMatch, ih]

theorem subMatch_of_leadMatch : ∀ {n h : List Char}, leadMatch n h = true → subMatch n h = true
  | _, [], H => by simpa [subMatch] using H
  | _, _ :: _, H => by simp [subMatch, H]

theorem subMatch_append_right (n : List Char) (pre : List Char) {h : List Char}
    (H : subMatch n h = true) : subMatch n (pre ++ h) = true := by
  induction pre with
  | nil => simpa using H
  | cons c cs ih => simp [subMatch, ih]

theorem data_append (a b : String) : (a ++ b).data = a.data ++ b.data := by
  cases a; cases b; rfl

theorem strContains_append_left (a b : String) : strContains (a ++ b) a = true := by
  rw [strContains, data_append]
  exact subMatch_of_leadMatch (leadMatch_append_self a.data b.data)

theorem strContains_append_right (a b : String) : strContains (a ++ b) b = true := by
  rw [strContains, data_append]
  refine subMatch_append_right b.data a.data ?_
  have h := leadMatch_append_self b.data []
  rw [List.append_nil] at h
  exact subMatch_of_leadMatch h

/-! ## Python float model

Every numeric value the three programs handle is a short terminating
decimal (user-supplied dimension strings and the literal defaults 20.0 and
50.0), and the programs perform no arithmetic on them: they only parse
(`float(s)`) and print (f-string interpolation).  Python floats are
therefore modelled exactly as signed decimals.  `pyFloat?` models the
`float(s)` parser on the subset without exponents, infinities, `nan` and
underscores (an optional sign, decimal digits, an optional decimal point);
`pyRepr` models CPython float formatting, which for such a value prints
the sign, the integer part, a dot, and the fractional digits with at least
one digit (`repr(30.0) = "30.0"`, `repr(float("-0")) = "-0.0"`). -/

/-- a Python float value: sign, integer part, fractional decimal digits
(canonical: no trailing zeros). -/
structure PyFloat where
  neg : Bool
  ip : Nat
  fr : List Nat
deriving DecidableEq

/-- all characters are decimal digits. -/
def allDigits (cs : List Char) : Bool := cs.all Char.isDigit

/-- numeric value of a digit string (most significant first). -/
def natOfDigits (cs : List Char) : Nat :=
  cs.foldl (fun n c => 10 * n + (c.toNat - 48)) 0

/-- digit values of a digit string. -/
def digitsOf (cs : List Char) : List Nat :=
  cs.map (fun c => c.toNat - 48)

/-- drop trailing zero digits of a fractional part. -/
def stripTrailingZeros (ds : List Nat) : List Nat :=
  (ds.reverse.dropWhile (fun d => d == 0)).reverse

/-- parse an unsigned decimal: `d+`, `d+.d*` or `.d+`. -/
def parseUnsigned (cs : List Char) : Option (Nat × List Nat) :=
  match cs.splitOn '.' with
  | [ip] =>
      if ip ≠ [] ∧ allDigits ip then some (natOfDigits ip, []) else none
  | [ip, fp] =>
      if (ip ≠ [] ∨ fp ≠ []) ∧ allDigits ip ∧ allDigits fp then
        some (natOfDigits ip, stripTrailingZeros (digitsOf fp))
      else none
  | _ => none

/-- model of Python `float(s)`: `some` value on success, `none` when a
`ValueError` would be raised. -/
def pyFloat? (s : String) : Option PyFloat :=
  match s.data with
  | '+' :: rest => (parseUnsigned rest).map (fun p => ⟨false, p.1, p.2⟩)
  | '-' :: rest => (parseUnsigned rest).map (fun p => ⟨true, p.1, p.2⟩)
  | cs => (parseUnsigned cs).map (fun p => ⟨false, p.1, p.2⟩)

/-- model of CPython float formatting (`repr` / f-string interpolation). -/
def pyRepr (x : PyFloat) : String :=
  (if x.neg then "-" else "") ++ toString x.ip ++ "." ++
    (if x.fr = [] then "0" else String.mk (x.fr.map (fun d => Char.ofNat (48 + d))))

/-- the float literal `n.0` (the defaults 20.0 and 50.0). -/
def pfNat (n : Nat) : PyFloat := ⟨false, n, []⟩

example : pyFloat? "30" = some (pfNat 30) := by decide
example : pyFloat? "abc" = none := by decide
example : pyFloat? "-5" = some ⟨true, 5, []⟩ := by decide
example : pyFloat? "3.50" = some ⟨false, 3, [5]⟩ := by decide
example : pyFloat? "" = none := by decide
example : pyRepr (pfNat 30) = "30.0" := by decide
example : pyRepr ⟨true, 5, []⟩ = "-5.0" := by decide
example : pyRepr ⟨false, 3, [5]⟩ = "3.5" := by decide
example : pyRepr (pfNat 0) = "0.0" := by decide

/-! ## HTTP embedding

A handler is a pure function from the request (path, decoded query pairs)
and the injected outcomes of external effects to an HTTP response.  The
query string is represented as the list of decoded `key=value` pairs in
order of appearance; `urllib.parse.parse_qs` / `parse_qsl` with default
arguments drop pairs whose value is blank (`keep_blank_values=False`). -/

/-- an HTTP response: status code and body text. -/
structure HttpResponse where
  status : Nat
  body : String
deriving DecidableEq

/-- `parse_qs(query)[k][0]`: first non-blank value bound to key `k`
(LiveCube.py line 100 builds the dict of lists, line 104 takes index 0). -/
def qsGet (query : List (String × String)) (k : String) : Option String :=
  ((query.filter (fun p => p.2 != "")).find? (fun p => p.1 == k)).map (fun p => p.2)

/-- `dict(parse_qsl(query)).get(k)`: last non-blank value bound to key `k`
(fusion_server.py line 27; later duplicates overwrite earlier ones). -/
def qslGet (query : List (String × String)) (k : String) : Option String :=
  (((query.filter (fun p => p.2 != "")).reverse).find? (fun p => p.1 == k)).map (fun p => p.2)

/-! ## src/LiveCube/LiveCube.py — embedded server -/

/-- result dict of `create_cube` (LiveCube.py lines 86 and 89):
`{"status": "success", "cube": ...}` or `{"status": "error", "message": ...}`. -/
inductive CubeResult where
  | success (cube : String)
  | error (message : String)
deriving DecidableEq

/-- the `status` field of the result dict. -/
def statusOf : CubeResult → String
  | CubeResult.success _ => "success"
  | CubeResult.error _ => "error"

/-- `json.dumps` of the result dict (insertion order, default separators). -/
def dumpsCube : CubeResult → String
  | CubeResult.success cube =>
      "\x7b\"status\": \"success\", \"cube\": \"" ++ cube ++ "\"\x7d"
  | CubeResult.error msg =>
      "\x7b\"status\": \"error\", \"message\": \"" ++ msg ++ "\"\x7d"

/-- `create_cube(edge_mm)` (LiveCube.py lines 44-89).  The geometry
construction is entirely Fusion-API calls; its outcome is injected as
`geomExc`: `none` when the API calls succeed, `some e` when one of them
raises an exception with text `str(e) = e`.  On success the function
returns the success dict mentioning the edge length, on exception the
error dict carrying the exception text. -/
def create_cube (geomExc : Option String) (edge_mm : PyFloat) : CubeResult :=
  match geomExc with
  | some e => CubeResult.error e
  | none => CubeResult.success (pyRepr edge_mm ++ "mm edge cube created")

/-- the edge length used by `CubeRequestHandler.do_GET` (LiveCube.py lines
102-108): start from the default 20.0; if `edge` is bound to a truthy
(non-empty) value, try `float` on it, keeping the default on `ValueError`. -/
def edge_of_query (query : List (String × String)) : PyFloat :=
  match qsGet query "edge" with
  | none => pfNat 20
  | some v =>
      if v = "" then pfNat 20
      else
        match pyFloat? v with
        | some x => x
        | none => pfNat 20

/-- `CubeRequestHandler.do_GET` (LiveCube.py lines 92-128) on a request
whose URL parses into `path` and `query`.  The `/cmd` branch answers 200
with the JSON-encoded result of `create_cube`; any other path answers 404
with a fixed error JSON body.  (The outer `except` clause, lines 124-128,
only fires when writing the response itself fails, which is outside this
embedding.) -/
def livecube_do_GET (geomExc : Option String) (path : String)
    (query : List (String × String)) : HttpResponse :=
  if path = "/cmd" then
    ⟨200, dumpsCube (create_cube geomExc (edge_of_query query))⟩
  else
    ⟨404, "\x7b\"status\": \"error\", \"message\": \"Path not found\"\x7d"⟩

/-! ## src/fusion_server.py — stub intermediary server -/

/-- `float(params.get(k, 50.0))` (fusion_server.py lines 46-48): the
default 50.0 when the key is absent, otherwise `float` on the string,
raising `ValueError` (with CPython's message text) when unparsable. -/
def floatParam (query : List (String × String)) (k : String) : Except String PyFloat :=
  match qslGet query k with
  | none => Except.ok (pfNat 50)
  | some s =>
      match pyFloat? s with
      | some x => Except.ok x
      | none => Except.error ("could not convert string to float: '" ++ s ++ "'")

/-- `json.dumps({"status": "success", "message": msg})` (lines 58-61). -/
def dumpsFusionSuccess (msg : String) : String :=
  "\x7b\"status\": \"success\", \"message\": \"" ++ msg ++ "\"\x7d"

/-- the success message (fusion_server.py line 60). -/
def fusionMsg (w h d : PyFloat) : String :=
  "Cube created with dimensions: W:" ++ pyRepr w ++ "mm, H:" ++ pyRepr h ++
    "mm, D:" ++ pyRepr d ++ "mm"

/-- `FusionRequestHandler._handle_create_cube` (fusion_server.py lines
42-67): parse width, height, depth in order; the first `ValueError`
aborts into the `except` clause, which answers 500 with
`"Error creating cube: " + str(e)`; otherwise answer 200 with the
success JSON. -/
def handle_create_cube (query : List (String × String)) : HttpResponse :=
  match floatParam query "width" with
  | Except.error e => ⟨500, "Error creating cube: " ++ e⟩
  | Except.ok width =>
    match floatParam query "height" with
    | Except.error e => ⟨500, "Error creating cube: " ++ e⟩
    | Except.ok height =>
      match floatParam query "depth" with
      | Except.error e => ⟨500, "Error creating cube: " ++ e⟩
      | Except.ok depth =>
        ⟨200, dumpsFusionSuccess (fusionMsg width height depth)⟩

/-- `FusionRequestHandler.do_GET` (fusion_server.py lines 22-40): route
`/create_cube` to the cube handler, any other path to a 404 with the
plain-text body `Not found` (line 35). -/
def fusion_do_GET (path : String) (query : List (String × String)) : HttpResponse :=
  if path = "/create_cube" then handle_create_cube query
  else ⟨404, "Not found"⟩

/-- a body is a JSON object when its first character is an opening brace. -/
def isJsonObjectBody (s : String) : Bool :=
  match s.data with
  | c :: _ => c == Char.ofNat 123
  | [] => false

example : livecube_do_GET none "/cmd" [("edge", "30")] =
    ⟨200, "\x7b\"status\": \"success\", \"cube\": \"30.0mm edge cube created\"\x7d"⟩ := by
  decide

example : fusion_do_GET "/create_cube" [("width", "10"), ("height", "20"), ("depth", "30")] =
    ⟨200, "\x7b\"status\": \"success\", \"message\": \"Cube created with dimensions: W:10.0mm, H:20.0mm, D:30.0mm\"\x7d"⟩ := by
  decide

example : fusion_do_GET "/create_cube" [("width", "abc")] =
    ⟨500, "Error creating cube: could not convert string to float: 'abc'"⟩ := by
  decide

/-! ## src/fusion_mcp.py — cloud orchestrator

The network is the only effect: its behaviour is injected as a `CloudEnv`
giving the outcome of the token exchange, of the workitem submission, and
the sequence of poll responses.  Each outcome is `Except.error e` when the
corresponding `httpx` call (or `raise_for_status`) raises an exception
with text `e`, and `Except.ok` of the extracted value otherwise. -/

/-- the JSON body of a `GET /workitems/{id}` poll response, restricted to
the fields the program reads: `data.get("status")` (line 86),
`result.get('reportUrl')` (line 105) and
`result["arguments"]["result"]["url"]` (line 106, `none` when a `KeyError`
would be raised there). -/
structure WorkItemResp where
  status : Option String
  reportUrl : Option String
  resultUrl : Option String
deriving DecidableEq

/-- one behaviour of the external network. -/
structure CloudEnv where
  tokenResult : Except String String
  submitResult : PyFloat → String → Except String String
  polls : List (Except String WorkItemResp)

/-- `wait_for_workitem` (fusion_mcp.py lines 75-89) along a finite trace of
poll outcomes: an erroring poll propagates the exception; a response whose
`status` is `success` or `failed` is returned; otherwise the loop sleeps
and polls again.  `none` models the trace running out, i.e. the loop
spinning forever on non-terminal statuses. -/
def wait_for_workitem : List (Except String WorkItemResp) → Option (Except String WorkItemResp)
  | [] => none
  | Except.error e :: _ => some (Except.error e)
  | Except.ok data :: rest =>
      if data.status = some "success" ∨ data.status = some "failed" then
        some (Except.ok data)
      else wait_for_workitem rest

/-- Python `str` of `result.get('reportUrl')` inside an f-string:
`"None"` when the key is absent. -/
def pyStrOfOpt : Option String → String
  | none => "None"
  | some s => s

/-- outcome of the `try` block of `generate_cube` (fusion_mcp.py lines
98-107): a returned string, an exception (text) escaping the block, or
divergence in the polling loop. -/
inductive InnerOut where
  | ret (s : String)
  | exc (e : String)
  | diverge
deriving DecidableEq

/-- the body of the `try` block of `generate_cube` (lines 98-107):
token exchange, workitem submission, polling; on a non-success terminal
status return the `WorkItem failed` message with the report URL, on
success return the `✅ Cube ready` message with the artifact URL (a
missing `arguments.result.url` raises a `KeyError`). -/
def generate_cube_inner (env : CloudEnv) (edge_mm : PyFloat) : InnerOut :=
  match env.tokenResult with
  | Except.error e => InnerOut.exc e
  | Except.ok token =>
    match env.submitResult edge_mm token with
    | Except.error e => InnerOut.exc e
    | Except.ok _work_id =>
      match wait_for_workitem env.polls with
      | none => InnerOut.diverge
      | some (Except.error e) => InnerOut.exc e
      | some (Except.ok result) =>
        if result.status ≠ some "success" then
          InnerOut.ret ("WorkItem failed: " ++ pyStrOfOpt result.reportUrl)
        else
          match result.resultUrl with
          | none => InnerOut.exc "'arguments'"
          | some stl_url => InnerOut.ret ("✅ Cube ready: " ++ stl_url)

/-- observable outcome of a call to the `generate_cube` tool. -/
inductive GenOut where
  | ret (s : String)
  | raised (e : String)
  | diverge
deriving DecidableEq

/-- `generate_cube` (fusion_mcp.py lines 92-110): the `try` body wrapped in
`except Exception as e: return f"❌ Error creating cube: {e}"`. -/
def generate_cube (env : CloudEnv) (edge_mm : PyFloat) : GenOut :=
  match generate_cube_inner env edge_mm with
  | InnerOut.ret s => GenOut.ret s
  | InnerOut.exc e => GenOut.ret ("❌ Error creating cube: " ++ e)
  | InnerOut.diverge => GenOut.diverge

/-- a poll response with a terminal status, as tested on line 87:
`status in ("success", "failed")`. -/
def isTerminal (r : WorkItemResp) : Bool :=
  r.status == some "success" || r.status == some "failed"

theorem isTerminal_iff (r : WorkItemResp) :
    isTerminal r = true ↔ (r.status = some "success" ∨ r.status = some "failed") := by
  simp [isTerminal]

example : generate_cube ⟨Except.error "boom", fun _ _ => Except.ok "w", []⟩ (pfNat 20) =
    GenOut.ret "❌ Error creating cube: boom" := by decide

example : generate_cube
    ⟨Except.ok "t", fun _ _ => Except.ok "w",
      [Except.ok ⟨some "pending", none, none⟩,
       Except.ok ⟨some "failed", some "http://report", none⟩]⟩ (pfNat 20) =
    GenOut.ret "WorkItem failed: http://report" := by decide

example : generate_cube
    ⟨Except.ok "t", fun _ _ => Except.ok "w",
      [Except.ok ⟨some "success", none, some "http://stl"⟩]⟩ (pfNat 20) =
    GenOut.ret "✅ Cube ready: http://stl" := by decide

/-! ## Claims -/

/-- C1: for every execution of the cloud orchestrator's `generate_cube`
tool and every behaviour of the token exchange, workitem submission and
polling steps, the tool never raises an exception to its caller: any
exception raised inside the `try` block is caught and converted into the
string `❌ Error creating cube: <exception>`. -/
theorem claim_C1 (env : CloudEnv) (edge_mm : PyFloat) :
    (∀ e, generate_cube env edge_mm ≠ GenOut.raised e) ∧
    (∀ e, generate_cube_inner env edge_mm = InnerOut.exc e →
      generate_cube env edge_mm = GenOut.ret ("❌ Error creating cube: " ++ e)) := by
  constructor
  · intro e
    simp only [generate_cube]
    cases generate_cube_inner env edge_mm <;> simp
  · intro e h
    simp only [generate_cube, h]

/-- witness for C1 at a behaviour whose token exchange raises `boom`. -/
theorem claim_C1_witness :
    generate_cube ⟨Except.error "boom", fun _ _ => Except.ok "w", []⟩ (pfNat 20) =
      GenOut.ret ("❌ Error creating cube: " ++ "boom") :=
  (claim_C1 ⟨Except.error "boom", fun _ _ => Except.ok "w", []⟩ (pfNat 20)).2 "boom" rfl

/-- C2: for every workitem whose polled status reaches `failed`, the cloud
orchestrator's `generate_cube` returns (rather than raising) a string
containing the phrase `WorkItem failed` and the workitem's report URL. -/
theorem claim_C2 (env : CloudEnv) (edge_mm : PyFloat) (t w : String) (r : WorkItemResp)
    (h1 : env.tokenResult = Except.ok t)
    (h2 : env.submitResult edge_mm t = Except.ok w)
    (h3 : wait_for_workitem env.polls = some (Except.ok r))
    (h4 : r.status = some "failed") :
    generate_cube env edge_mm =
      GenOut.ret ("WorkItem failed: " ++ pyStrOfOpt r.reportUrl) ∧
    strContains ("WorkItem failed: " ++ pyStrOfOpt r.reportUrl) "WorkItem failed" = true ∧
    (∀ u, r.reportUrl = some u →
      strContains ("WorkItem failed: " ++ pyStrOfOpt r.reportUrl) u = true) := by
  have hi : generate_cube_inner env edge_mm =
      InnerOut.ret ("WorkItem failed: " ++ pyStrOfOpt r.reportUrl) := by
    simp only [generate_cube_inner, h1, h2, h3, h4]
    rw [if_pos (by decide : (some "failed" : Option String) ≠ some "success")]
  refine ⟨by simp only [generate_cube, hi], ?_, ?_⟩
  · have hsplit : ("WorkItem failed: " : String) = "WorkItem failed" ++ ": " := rfl
    rw [hsplit, String.append_assoc]
    exact strContains_append_left _ _
  · intro u hu
    rw [hu]
    exact strContains_append_right _ _

/-- witness for C2 at a behaviour whose single poll answers status
`failed` with a report URL. -/
theorem claim_C2_witness :
    generate_cube
      ⟨Except.ok "t", fun _ _ => Except.ok "w1",
        [Except.ok ⟨some "failed", some "http://report", none⟩]⟩ (pfNat 20) =
      GenOut.ret ("WorkItem failed: " ++ pyStrOfOpt (some "http://report")) :=
  (claim_C2 ⟨Except.ok "t", fun _ _ => Except.ok "w1",
      [Except.ok ⟨some "failed", some "http://report", none⟩]⟩ (pfNat 20)
    "t" "w1" ⟨some "failed", some "http://report", none⟩ rfl rfl rfl rfl).1

/-- C8: for every sequence of poll responses that eventually contains a
response with status `success` or `failed`, `wait_for_workitem` terminates
and returns the first such terminal response; and it never returns a
response whose status is outside `{success, failed}`. -/
theorem claim_C8 :
    (∀ rs : List WorkItemResp, (∃ r ∈ rs, isTerminal r = true) →
      ∃ r, rs.find? isTerminal = some r ∧
        wait_for_workitem (rs.map Except.ok) = some (Except.ok r) ∧ isTerminal r = true) ∧
    (∀ ps r, wait_for_workitem ps = some (Except.ok r) → isTerminal r = true) := by
  constructor
  · intro rs
    induction rs with
    | nil =>
      rintro ⟨r, hr, -⟩
      exact absurd hr (List.not_mem_nil r)
    | cons a t ih =>
      intro hex
      by_cases ha : isTerminal a = true
      · refine ⟨a, ?_, ?_, ha⟩
        · rw [List.find?_cons_of_pos _ ha]
        · simp only [List.map_cons, wait_for_workitem]
          rw [if_pos ((isTerminal_iff a).mp ha)]
      · obtain ⟨r, hr, hrt⟩ := hex
        have hrmem : r ∈ t := by
          rcases List.mem_cons.mp hr with h | h
          · subst h; exact absurd hrt ha
          · exact h
        obtain ⟨r0, hf, hw, ht⟩ := ih ⟨r, hrmem, hrt⟩
        refine ⟨r0, ?_, ?_, ht⟩
        · rw [List.find?_cons_of_neg _ (by simpa using ha)]
          exact hf
        · have hna : ¬ (a.status = some "success" ∨ a.status = some "failed") := by
            rw [← isTerminal_iff]
            simpa using ha
          simp only [List.map_cons, wait_for_workitem]
          rw [if_neg hna]
          exact hw
  · intro ps
    induction ps with
    | nil =>
      intro r h
      simp [wait_for_workitem] at h
    | cons a t ih =>
      intro r h
      cases a with
      | error e => simp [wait_for_workitem] at h
      | ok d =>
        by_cases hc : d.status = some "success" ∨ d.status = some "failed"
        · rw [wait_for_workitem, if_pos hc] at h
          have hd : d = r := by
            injection h with h1
            injection h1
          subst hd
          exact (isTerminal_iff d).mpr hc
        · rw [wait_for_workitem, if_neg hc] at h
          exact ih r h

/-- witness for C8 on a trace with one pending poll followed by a
successful one. -/
theorem claim_C8_witness :
    wait_for_workitem
      (([⟨some "pending", none, none⟩, ⟨some "success", none, some "u"⟩] :
          List WorkItemResp).map Except.ok) =
      some (Except.ok ⟨some "success", none, some "u"⟩) := by
  obtain ⟨r, hf, hw, -⟩ := claim_C8.1
    [⟨some "pending", none, none⟩, ⟨some "success", none, some "u"⟩]
    ⟨⟨some "success", none, some "u"⟩, by decide, by decide⟩
  have h1 : List.find? isTerminal
      [⟨some "pending", none, none⟩, ⟨some "success", none, some "u"⟩] =
      some (⟨some "success", none, some "u"⟩ : WorkItemResp) := by decide
  have h2 := h1.symm.trans hf
  have h3 : (⟨some "success", none, some "u"⟩ : WorkItemResp) = r := by
    injection h2
  rw [← h3] at hw
  exact hw

/-- helper: when the `edge` parameter is missing or unparsable, the
embedded handler answers with the default 20.0mm success payload. -/
theorem livecube_default_edge (query : List (String × String))
    (h : ∀ v, qsGet query "edge" = some v → pyFloat? v = none) :
    livecube_do_GET none "/cmd" query =
      ⟨200, dumpsCube (CubeResult.success "20.0mm edge cube created")⟩ := by
  have he : edge_of_query query = pfNat 20 := by
    unfold edge_of_query
    cases hq : qsGet query "edge" with
    | none => rfl
    | some v =>
      show (if v = "" then pfNat 20
            else match pyFloat? v with | some x => x | none => pfNat 20) = pfNat 20
      by_cases hv : v = ""
      · rw [if_pos hv]
      · rw [if_neg hv, h v hq]
  unfold livecube_do_GET
  rw [if_pos rfl, he]
  decide

/-- C3: for every GET request to `/cmd` on the embedded server in which
the `edge` query parameter is missing or unparsable as a float, the
handler uses the default edge length 20.0mm and answers with a success
payload, not an error response. -/
theorem claim_C3 (query : List (String × String))
    (h : ∀ v, qsGet query "edge" = some v → pyFloat? v = none) :
    livecube_do_GET none "/cmd" query =
      ⟨200, dumpsCube (CubeResult.success "20.0mm edge cube created")⟩ :=
  livecube_default_edge query h

/-- witness for C3 at the non-numeric request `/cmd?edge=abc`. -/
theorem claim_C3_witness :
    livecube_do_GET none "/cmd" [("edge", "abc")] =
      ⟨200, dumpsCube (CubeResult.success "20.0mm edge cube created")⟩ := by
  apply claim_C3
  intro v hv
  have h2 : qsGet [("edge", "abc")] "edge" = some "abc" := by decide
  rw [h2] at hv
  injection hv with h3
  rw [← h3]
  decide

/-- C4: the GET request `/cmd?edge=30` yields a success payload whose text
mentions `30.0mm edge cube created` — the parsed float `30.0`, not the
literal `30`, appears in the message. -/
theorem claim_C4 :
    livecube_do_GET none "/cmd" [("edge", "30")] =
      ⟨200, dumpsCube (CubeResult.success "30.0mm edge cube created")⟩ ∧
    strContains (livecube_do_GET none "/cmd" [("edge", "30")]).body
      "30.0mm edge cube created" = true ∧
    strContains (livecube_do_GET none "/cmd" [("edge", "30")]).body "30.0" = true := by
  refine ⟨by decide, by decide, by decide⟩

/-- C9: every GET request to `/cmd` on the embedded server is answered
with HTTP 200 and a JSON body whose `status` field is `success` or
`error`; when cube creation fails with exception text `e`, the error
payload's message field is exactly `e`. -/
theorem claim_C9 (geomExc : Option String) (query : List (String × String)) :
    ∃ r : CubeResult,
      livecube_do_GET geomExc "/cmd" query = ⟨200, dumpsCube r⟩ ∧
      (statusOf r = "success" ∨ statusOf r = "error") ∧
      (∀ e, geomExc = some e → r = CubeResult.error e) := by
  refine ⟨create_cube geomExc (edge_of_query query), ?_, ?_, ?_⟩
  · unfold livecube_do_GET
    rw [if_pos rfl]
  · cases geomExc <;> simp [create_cube, statusOf]
  · intro e he
    subst he
    rfl

/-- witness for C9 at a request whose geometry construction raises `boom`. -/
theorem claim_C9_witness :
    ∃ r : CubeResult,
      livecube_do_GET (some "boom") "/cmd" [] = ⟨200, dumpsCube r⟩ ∧
      (statusOf r = "success" ∨ statusOf r = "error") ∧
      (∀ e, (some "boom" : Option String) = some e → r = CubeResult.error e) :=
  claim_C9 (some "boom") []

/-- the `edge` parameter of a query is absent or unparsable as a float. -/
def edgeUnusable (query : List (String × String)) : Prop :=
  ∀ v, qsGet query "edge" = some v → pyFloat? v = none

/-- C5 counterexample: on the stub server an unparsable `width` is NOT
replaced by the default — `float("abc")` raises `ValueError` and the
request fails with HTTP 500, refuting the claim that the request still
succeeds. -/
theorem claim_C5_counterexample :
    fusion_do_GET "/create_cube" [("width", "abc")] =
      ⟨500, "Error creating cube: could not convert string to float: 'abc'"⟩ ∧
    (fusion_do_GET "/create_cube" [("width", "abc")]).status ≠ 200 := by
  refine ⟨by decide, by decide⟩

/-- helper: when the three stub parameters resolve (each by parsing or by
the 50.0 default on absence), the stub answers 200 with the success JSON
built from the resolved values. -/
theorem fusion_success_of_params (query : List (String × String)) (w h d : PyFloat)
    (hw : floatParam query "width" = Except.ok w)
    (hh : floatParam query "height" = Except.ok h)
    (hd : floatParam query "depth" = Except.ok d) :
    fusion_do_GET "/create_cube" query =
      ⟨200, dumpsFusionSuccess (fusionMsg w h d)⟩ := by
  unfold fusion_do_GET
  rw [if_pos rfl]
  unfold handle_create_cube
  rw [hw, hh, hd]

/-- C5 (amended): the embedded server replaces an absent or unparsable
`edge` by the default 20.0 and the request succeeds; the stub server
applies the default 50.0 independently to each absent width/height/depth
parameter and answers 200 with the success JSON whenever all three
resolve, while a present but unparsable value for any of the three makes
`float` raise `ValueError` and the request fail with HTTP 500 instead of
succeeding. -/
theorem claim_C5_amended :
    (∀ query, edgeUnusable query →
      livecube_do_GET none "/cmd" query =
        ⟨200, dumpsCube (CubeResult.success "20.0mm edge cube created")⟩) ∧
    (∀ query k, qslGet query k = none → floatParam query k = Except.ok (pfNat 50)) ∧
    (∀ query w h d, floatParam query "width" = Except.ok w →
      floatParam query "height" = Except.ok h →
      floatParam query "depth" = Except.ok d →
      fusion_do_GET "/create_cube" query =
        ⟨200, dumpsFusionSuccess (fusionMsg w h d)⟩) ∧
    (∀ query k s, (k = "width" ∨ k = "height" ∨ k = "depth") →
      qslGet query k = some s → pyFloat? s = none →
      (fusion_do_GET "/create_cube" query).status = 500) := by
  refine ⟨fun query h => livecube_default_edge query h, ?_, ?_, ?_⟩
  · intro query k hk
    simp only [floatParam, hk]
  · intro query w h d hw hh hd
    exact fusion_success_of_params query w h d hw hh hd
  · intro query k s hk hs hn
    have herr : floatParam query k =
        Except.error ("could not convert string to float: '" ++ s ++ "'") := by
      simp only [floatParam, hs, hn]
    unfold fusion_do_GET
    rw [if_pos rfl]
    unfold handle_create_cube
    rcases hk with hk | hk | hk
    · subst hk
      rw [herr]
    · subst hk
      cases hw : floatParam query "width" with
      | error e => simp only [hw]
      | ok w => simp only [hw, herr]
    · subst hk
      cases hw : floatParam query "width" with
      | error e => simp only [hw]
      | ok w =>
        cases hh : floatParam query "height" with
        | error e => simp only [hw, hh]
        | ok h => simp only [hw, hh, herr]

/-- witness for the amended C5: a request with an unparsable edge, the
50.0 default for an absent stub parameter, a partial-absence success
(width given, height and depth defaulting), and an unparsable height
failing with HTTP 500. -/
theorem claim_C5_witness :
    livecube_do_GET none "/cmd" [("edge", "oops")] =
      ⟨200, dumpsCube (CubeResult.success "20.0mm edge cube created")⟩ ∧
    floatParam [("width", "10")] "height" = Except.ok (pfNat 50) ∧
    fusion_do_GET "/create_cube" [("width", "10")] =
      ⟨200, dumpsFusionSuccess (fusionMsg (pfNat 10) (pfNat 50) (pfNat 50))⟩ ∧
    (fusion_do_GET "/create_cube" [("width", "10"), ("height", "abc")]).status = 500 := by
  refine ⟨claim_C5_amended.1 [("edge", "oops")] ?_,
    claim_C5_amended.2.1 [("width", "10")] "height" rfl,
    claim_C5_amended.2.2.1 [("width", "10")] (pfNat 10) (pfNat 50) (pfNat 50) rfl rfl rfl,
    claim_C5_amended.2.2.2 [("width", "10"), ("height", "abc")] "height" "abc"
      (Or.inr (Or.inl rfl)) (by decide) (by decide)⟩
  intro v hv
  have h2 : qsGet [("edge", "oops")] "edge" = some "oops" := by decide
  rw [h2] at hv
  injection hv with h3
  rw [← h3]
  decide

/-- C6 counterexample: the stub server's 404 body for an unknown path is
the plain text `Not found`, not an error JSON object, refuting the claim
for the stub server. -/
theorem claim_C6_counterexample :
    fusion_do_GET "/nope" [] = ⟨404, "Not found"⟩ ∧
    isJsonObjectBody (fusion_do_GET "/nope" []).body = false := by
  refine ⟨by decide, by decide⟩

/-- C6 (amended): both servers answer an unknown path with HTTP 404; the
embedded server's body is an error JSON object, while the stub server's
body is the plain text `Not found`, which is not a JSON object. -/
theorem claim_C6_amended (geomExc : Option String) (path : String)
    (query : List (String × String)) (h1 : path ≠ "/cmd") (h2 : path ≠ "/create_cube") :
    livecube_do_GET geomExc path query =
      ⟨404, "\x7b\"status\": \"error\", \"message\": \"Path not found\"\x7d"⟩ ∧
    isJsonObjectBody (livecube_do_GET geomExc path query).body = true ∧
    fusion_do_GET path query = ⟨404, "Not found"⟩ ∧
    isJsonObjectBody (fusion_do_GET path query).body = false := by
  have hl : livecube_do_GET geomExc path query =
      ⟨404, "\x7b\"status\": \"error\", \"message\": \"Path not found\"\x7d"⟩ := by
    unfold livecube_do_GET
    rw [if_neg h1]
  have hf : fusion_do_GET path query = ⟨404, "Not found"⟩ := by
    unfold fusion_do_GET
    rw [if_neg h2]
  refine ⟨hl, ?_, hf, ?_⟩
  · rw [hl]
    decide
  · rw [hf]
    decide

/-- witness for the amended C6 at the unknown path `/missing`. -/
theorem claim_C6_witness :
    livecube_do_GET none "/missing" [] =
      ⟨404, "\x7b\"status\": \"error\", \"message\": \"Path not found\"\x7d"⟩ ∧
    isJsonObjectBody (livecube_do_GET none "/missing" []).body = true ∧
    fusion_do_GET "/missing" [] = ⟨404, "Not found"⟩ ∧
    isJsonObjectBody (fusion_do_GET "/missing" []).body = false :=
  claim_C6_amended none "/missing" [] (by decide) (by decide)

/-- C7: the stub request `/create_cube?width=10&height=20&depth=30` yields
a success JSON whose message contains the three supplied values `10`, `20`
and `30` verbatim. -/
theorem claim_C7 :
    fusion_do_GET "/create_cube" [("width", "10"), ("height", "20"), ("depth", "30")] =
      ⟨200, dumpsFusionSuccess
        "Cube created with dimensions: W:10.0mm, H:20.0mm, D:30.0mm"⟩ ∧
    strContains (fusion_do_GET "/create_cube"
      [("width", "10"), ("height", "20"), ("depth", "30")]).body "10" = true ∧
    strContains (fusion_do_GET "/create_cube"
      [("width", "10"), ("height", "20"), ("depth", "30")]).body "20" = true ∧
    strContains (fusion_do_GET "/create_cube"
      [("width", "10"), ("height", "20"), ("depth", "30")]).body "30" = true := by
  refine ⟨by decide, by decide, by decide, by decide⟩

/-- C10: every `/create_cube` request on the stub server whose width,
height and depth parameters are accepted by `float` — zero and negative
values included — is answered with HTTP 200 and the success JSON; no
positivity check is performed on the dimensions. -/
theorem claim_C10 (query : List (String × String)) (w h d : PyFloat)
    (hw : floatParam query "width" = Except.ok w)
    (hh : floatParam query "height" = Except.ok h)
    (hd : floatParam query "depth" = Except.ok d) :
    fusion_do_GET "/create_cube" query =
      ⟨200, dumpsFusionSuccess (fusionMsg w h d)⟩ ∧
    (fusion_do_GET "/create_cube" query).status = 200 := by
  have hmain : fusion_do_GET "/create_cube" query =
      ⟨200, dumpsFusionSuccess (fusionMsg w h d)⟩ := by
    unfold fusion_do_GET
    rw [if_pos rfl]
    unfold handle_create_cube
    rw [hw, hh, hd]
  exact ⟨hmain, by rw [hmain]⟩

/-- witness for C10 at a request with a negative width and a zero height. -/
theorem claim_C10_witness :
    fusion_do_GET "/create_cube" [("width", "-5"), ("height", "0"), ("depth", "3.5")] =
      ⟨200, dumpsFusionSuccess (fusionMsg ⟨true, 5, []⟩ ⟨false, 0, []⟩ ⟨false, 3, [5]⟩)⟩ :=
  (claim_C10 [("width", "-5"), ("height", "0"), ("depth", "3.5")]
    ⟨true, 5, []⟩ ⟨false, 0, []⟩ ⟨false, 3, [5]⟩ rfl rfl rfl).1
